import Mathlib

/-!
Verification of the `pymt` Merkle-tree wrapper (`src/merkletools/mt.py`).

The repository sources contain the `MerkleTree` wrapper class; its base class
`MerkleTools` and the `Proof` container are imported from modules that are not
part of the sources, so those parts are modelled from the specification
(`spec.md`), as marked on each definition.  Byte strings and text strings are
both modelled as Lean `String`s (the wrapper only ever moves between them with
`encode`/`decode`, which are inverse to each other).
-/

-- Python runtime values, as far as the wrapper inspects them.  A dict is a
-- finite ordered sequence of key/value pairs (CPython preserves insertion
-- order).
mutual

inductive PyVal where
  | pbool : Bool → PyVal
  | pint : Int → PyVal
  | pstr : String → PyVal
  | pbytes : String → PyVal
  | pnone : PyVal
  | ptuple : List PyVal → PyVal
  | pdict : PyDict → PyVal

inductive PyDict where
  | nil : PyDict
  | cons : PyVal → PyVal → PyDict → PyDict

end

/-- `isinstance(v, bool)`.  In Python `bool` is the only type whose instances
satisfy this; an `int` such as `1` does not. -/
def PyVal.isBool : PyVal → Bool
  | .pbool _ => true
  | _ => false

/-- `isinstance(v, bytes)`. -/
def PyVal.isBytes : PyVal → Bool
  | .pbytes _ => true
  | _ => false

/-- `isinstance(v, str)`. -/
def PyVal.isStr : PyVal → Bool
  | .pstr _ => true
  | _ => false

/-- `isinstance(v, dict)`. -/
def PyVal.isDict : PyVal → Bool
  | .pdict _ => true
  | _ => false

def PyDict.isEmpty : PyDict → Bool
  | .nil => true
  | .cons _ _ _ => false

/-- Python truthiness (`bool(v)`): `False`, `0`, empty strings, `None` and
empty containers are falsy; everything else — in particular every non-empty
tuple — is truthy. -/
def pyTruthy : PyVal → Bool
  | .pbool b => b
  | .pint n => n != 0
  | .pstr s => s != ""
  | .pbytes s => s != ""
  | .pnone => false
  | .ptuple l => !l.isEmpty
  | .pdict d => !d.isEmpty

/-- The quoting character used by `str()` on a bytes object. -/
def pyQuote : String :=
  String.singleton (Char.ofNat 39)

/-- Python `str()` on the values the wrapper can feed to it.  Scalars follow
CPython; container rendering is never reached by any claim (a dict can never
be a dict key — dicts are unhashable — and no claim feeds a tuple key to the
flattener), so tuples and dicts carry an opaque tag here. -/
def pyStr : PyVal → String
  | .pbool b => if b then "True" else "False"
  | .pint n => toString n
  | .pstr s => s
  | .pbytes s => "b" ++ pyQuote ++ s ++ pyQuote
  | .pnone => "None"
  | .ptuple _ => "tuple"
  | .pdict _ => "dict"

/-- Error kinds observable from the wrapper, following the spec's error
taxonomy (§7): Python `TypeError` (both the isinstance checks and
argument-count mismatches), `EmptyTree`, `IndexOutOfRange`, and the
`NotImplementedError` of the exclusion-proof stubs. -/
inductive MTError where
  | typeError : MTError
  | emptyTree : MTError
  | indexOutOfRange : MTError
  | notImplemented : MTError
deriving DecidableEq

/-- Line 50 of `mt.py`:
`if not (isinstance(value, bytes), isinstance(value, str), isinstance(value, dict)):`.
The parenthesised expression is a three-element tuple of the isinstance
results, not their disjunction; `put` raises `TypeError` exactly when this
guard is true. -/
def put_guard_raises (value : PyVal) : Bool :=
  !pyTruthy (.ptuple [.pbool value.isBytes, .pbool value.isStr, .pbool value.isDict])

/-- Line 57 of `mt.py` (`_convert_dict_to_string`): iterate over the items in
order; a dict value contributes its own flattening (the key is discarded), any
other value contributes `str(key) + str(value)`.  The isinstance guard on
line 76 is the same always-truthy tuple as on line 50 and can never raise, so
it does not appear in the control flow. -/
def _convert_dict_to_string : PyDict → String
  | .nil => ""
  | .cons _ (.pdict d) rest => _convert_dict_to_string d ++ _convert_dict_to_string rest
  | .cons k v rest => pyStr k ++ pyStr v ++ _convert_dict_to_string rest

/-- A dict whose keys and values are all Python `str`. -/
def PyDict.allStr : PyDict → Bool
  | .nil => true
  | .cons (.pstr _) (.pstr _) rest => rest.allStr
  | .cons _ _ _ => false

/-- What a call to `put` (line 28 of `mt.py`) does at its boundary: raise, or
hand a (dict-flattened) value on to `add_leaf`. -/
inductive PutOutcome where
  | raisedTypeError : PutOutcome
  | addedLeaf : PyVal → PutOutcome

/-- `MerkleTree.put` up to the hand-off to `add_leaf`: check the (broken)
boundary guard, flatten a dict into a string, and pass the result on. -/
def put (value : PyVal) : PutOutcome :=
  if put_guard_raises value then .raisedTypeError
  else .addedLeaf (match value with
    | .pdict d => .pstr (_convert_dict_to_string d)
    | v => v)

/-- The state of a `MerkleTree` object: the `secure` flag and hash choice set
at construction, the stored leaves, and — when built — the materialized
levels (`none` models the Unbuilt state, in which `is_ready` is false). -/
structure MTState where
  secure : Bool
  hash_type : String
  leaves : List String
  levels : Option (List (List String))
deriving DecidableEq

/-- `MerkleTree.__init__` (line 7 of `mt.py`): reject a non-`bool` `secure`
argument with `TypeError` before anything else; otherwise store the flag and
initialize the empty, unbuilt tree (the base-class constructor). -/
def MerkleTree.init (secure : PyVal) (hash_type : String) : Except MTError MTState :=
  if !secure.isBool then .error .typeError
  else .ok (MTState.mk (match secure with | .pbool b => b | _ => false) hash_type [] none)

-- ---------------------------------------------------------------------------
-- The exclusion-proof stubs (lines 235-239 of `mt.py`).
-- ---------------------------------------------------------------------------

/-- Python call semantics: a call that passes `nargs` arguments to a function
declared with `arity` parameters raises `TypeError` before the body runs
unless the counts match. -/
def py_call (arity nargs : Nat) (body : Except MTError Unit) : Except MTError Unit :=
  if nargs = arity then body else .error .typeError

/-- Body of `get_proof_of_exclusion` (line 236): `raise NotImplementedError`. -/
def get_proof_of_exclusion_body : Except MTError Unit :=
  .error .notImplemented

/-- Body of `verify_proof_of_exclusion` (line 239): `raise NotImplementedError`. -/
def verify_proof_of_exclusion_body : Except MTError Unit :=
  .error .notImplemented

/-- `t.get_proof_of_exclusion()` on an instance `t`: the declaration
(line 235) has the single parameter `self`, and the method call passes the
receiver as its one argument. -/
def call_get_proof_of_exclusion : Except MTError Unit :=
  py_call 1 1 get_proof_of_exclusion_body

/-- `t.verify_proof_of_exclusion()` on an instance `t`: the declaration
(line 238) has NO parameters — `self` is missing — while a method call still
passes the receiver as one argument. -/
def call_verify_proof_of_exclusion : Except MTError Unit :=
  py_call 0 1 verify_proof_of_exclusion_body

-- ---------------------------------------------------------------------------
-- The tree core.  `MerkleTools`, the base class of `MerkleTree`, is imported
-- from a module that is not part of the sources; the definitions below are
-- modelled from the spec (§4.3 TreeBuilder, §4.4 ProofGenerator,
-- §4.5 ProofVerifier), parametrized by the digest function `H` (§4.1
-- HashEngine; in the Python code `H` is `hash_function(.).hexdigest()`).
-- ---------------------------------------------------------------------------

/-- Modelled from the spec: one TreeBuilder step (§4.3) — pair adjacent nodes
left to right, duplicating a lone trailing node into a synthetic pair, and
combine each pair as `digest(left ++ right)`. -/
def next_level (H : String → String) : List String → List String
  | [] => []
  | [a] => [H (a ++ a)]
  | a :: b :: rest => H (a ++ b) :: next_level H rest

theorem next_level_length (H : String → String) :
    ∀ l : List String, (next_level H l).length = (l.length + 1) / 2
  | [] => by simp [next_level]
  | [_] => by simp [next_level]
  | _ :: _ :: rest => by
    simp [next_level, next_level_length H rest]
    omega

/-- Modelled from the spec: the full TreeBuilder (§4.3) — level 0 is the leaf
sequence as given, and levels are stacked until a single node remains. -/
def build_levels (H : String → String) (lvl : List String) : List (List String) :=
  if _h : lvl.length ≤ 1 then [lvl]
  else lvl :: build_levels H (next_level H lvl)
termination_by lvl.length
decreasing_by
  rw [next_level_length]
  omega

/-- Modelled from the spec: the root digest a build produces — iterate
`next_level` until one node remains (§4.3). -/
def merkle_root (H : String → String) (lvl : List String) : String :=
  if _h : lvl.length ≤ 1 then lvl.getD 0 ""
  else merkle_root H (next_level H lvl)
termination_by lvl.length
decreasing_by
  rw [next_level_length]
  omega

/-- Which side of the path node a recorded sibling sits on (§4.4/§6). -/
inductive Side where
  | left : Side
  | right : Side
deriving DecidableEq

/-- One proof entry: a sibling digest tagged with its side (§6). -/
structure ProofEntry where
  side : Side
  digest : String
deriving DecidableEq

/-- Modelled from the spec: the sibling entry recorded at one level for path
position `i` (§4.4) — the sibling is the node at `i XOR 1` (the right
neighbour when `i` is even, the left neighbour when `i` is odd), and a lone
unpaired last node uses its own duplicate as the sibling.  Written as the
recursion that walks to position `i` two nodes at a time. -/
def entry_at : List String → Nat → ProofEntry
  | [], _ => ProofEntry.mk Side.right ""
  | [a], _ => ProofEntry.mk Side.right a
  | _ :: b :: _, 0 => ProofEntry.mk Side.right b
  | a :: _ :: _, 1 => ProofEntry.mk Side.left a
  | _ :: _ :: rest, i + 2 => entry_at rest i

/-- Modelled from the spec: ProofGenerator's walk (§4.4) — record a sibling
entry at every level below the root, halving the position each step. -/
def prove_path (H : String → String) (lvl : List String) (i : Nat) : List ProofEntry :=
  if _h : lvl.length ≤ 1 then []
  else entry_at lvl i :: prove_path H (next_level H lvl) (i / 2)
termination_by lvl.length
decreasing_by
  rw [next_level_length]
  omega

/-- Modelled from the spec: one ProofVerifier step (§4.5) — fold the sibling
into the running digest on the recorded side. -/
def apply_entry (H : String → String) (e : ProofEntry) (cur : String) : String :=
  match e.side with
  | Side.left => H (e.digest ++ cur)
  | Side.right => H (cur ++ e.digest)

/-- Modelled from the spec: ProofVerifier's recomputation (§4.5) — fold all
entries in leaf-to-root order starting from the target leaf. -/
def verify_fold (H : String → String) : List ProofEntry → String → String
  | [], cur => cur
  | e :: rest, cur => verify_fold H rest (apply_entry H e cur)

/-- Modelled from the spec: the `Proof` container built by
`get_proof_of_inclusion` (line 207 of `mt.py`) — the target leaf, the claimed
root, the ordered sibling entries, and the proof-type tag. -/
structure InclusionProof where
  target : String
  trie_root : String
  proof : List ProofEntry
  ptype : String
deriving DecidableEq

/-- `MerkleTree.get_proof_of_inclusion` (line 175 of `mt.py`) on a built tree
with the given stored leaves: fails with `IndexOutOfRange` past the leaf
count (§4.4), else bundles the stored leaf, the root, and the sibling path. -/
def get_proof_of_inclusion (H : String → String) (leaves : List String) (i : Nat) :
    Except MTError InclusionProof :=
  if i < leaves.length then
    .ok (InclusionProof.mk (leaves.getD i "") (merkle_root H leaves) (prove_path H leaves i) "MT POI")
  else .error .indexOutOfRange

/-- `MerkleTree.verify_proof_of_inclusion` (line 210 of `mt.py`): recompute
the root from the target and the sibling entries and compare it to the
claimed root (§4.5). -/
def verify_proof_of_inclusion (H : String → String) (p : InclusionProof) : Bool :=
  verify_fold H p.proof p.target == p.trie_root

/-- Modelled from the spec: LeafStore append (§4.2), the base-class
`add_leaf(value, do_hash)` that `put` calls — store `digest(value)` when
`do_hash`, else the value unchanged. -/
def add_leaf (H : String → String) (do_hash : Bool) (leaves : List String) (value : String) :
    List String :=
  leaves ++ [if do_hash then H value else value]

/-- `MerkleTree.convert_value` (line 102 of `mt.py`): reject a value that is
not bytes, str or dict (this guard, unlike line 50, is a real disjunction),
else return `hash_function(value).hexdigest().encode()` in secure mode and
the value unchanged otherwise.  The digest argument is the value's payload;
the claims only exercise byte-string values. -/
def convert_value (H : String → String) (secure : Bool) (v : PyVal) : Except MTError PyVal :=
  if !(v.isBytes || v.isStr || v.isDict) then .error .typeError
  else if secure then
    .ok (.pbytes (H (match v with | .pbytes s => s | .pstr s => s | w => pyStr w)))
  else .ok v

/-- `is_ready` of the base class: whether the levels are materialized. -/
def is_ready (st : MTState) : Bool :=
  st.levels.isSome

/-- Modelled from the spec: the base-class `make_tree` — building with zero
leaves fails with `EmptyTree` (§4.3); otherwise it materializes every level
from the stored leaves and marks the tree Built. -/
def make_tree (H : String → String) (st : MTState) : Except MTError MTState :=
  if st.leaves.isEmpty then .error .emptyTree
  else .ok (MTState.mk st.secure st.hash_type st.leaves (some (build_levels H st.leaves)))

/-- Modelled from the spec: the base-class root read (`super().get_merkle_root()`)
— the single node of the topmost materialized level; a root query with no
materialized levels is rejected (§3: an empty tree has an absent root). -/
def read_root (st : MTState) : Except MTError String :=
  match st.levels with
  | some lvls => .ok ((lvls.getLastD []).getD 0 "")
  | none => .error .emptyTree

/-- `MerkleTree.get_merkle_root` (line 159 of `mt.py`): build first when the
tree is not ready, then read the root from the resulting state. -/
def get_merkle_root (H : String → String) (st : MTState) : Except MTError String :=
  if !is_ready st then (make_tree H st).bind read_root
  else read_root st

/-- `MerkleTree.reset_tree` (line 155 of `mt.py`), via the base class: clear
the leaves and drop any built levels, keeping the configuration. -/
def reset_tree (st : MTState) : MTState :=
  MTState.mk st.secure st.hash_type [] none

-- ---------------------------------------------------------------------------
-- Helper lemmas for the proof round-trip.
-- ---------------------------------------------------------------------------

theorem apply_entry_at (H : String → String) :
    ∀ (l : List String) (i : Nat), i < l.length →
      apply_entry H (entry_at l i) (l.getD i "") = (next_level H l).getD (i / 2) ""
  | [], _, h => absurd h (by simp)
  | [a], 0, _ => by simp [entry_at, apply_entry, next_level]
  | [_], i + 1, h => by simp at h
  | a :: b :: rest, 0, _ => by simp [entry_at, apply_entry, next_level]
  | a :: b :: rest, 1, _ => by simp [entry_at, apply_entry, next_level]
  | a :: b :: rest, i + 2, h => by
    have ih := apply_entry_at H rest i (by simp at h; omega)
    have h2 : (i + 2) / 2 = i / 2 + 1 := by omega
    simp only [entry_at, next_level, List.getD_cons_succ, h2]
    exact ih

theorem verify_fold_path (H : String → String) (l : List String) (i : Nat)
    (h : i < l.length) :
    verify_fold H (prove_path H l i) (l.getD i "") = merkle_root H l := by
  by_cases hl : l.length ≤ 1
  · have hi : i = 0 := by omega
    subst hi
    rw [prove_path, merkle_root, dif_pos hl, dif_pos hl]
    rfl
  · rw [prove_path, merkle_root, dif_neg hl, dif_neg hl, verify_fold,
      apply_entry_at H l i h]
    exact verify_fold_path H (next_level H l) (i / 2)
      (by rw [next_level_length]; omega)
termination_by l.length
decreasing_by
  rw [next_level_length]
  omega

-- ---------------------------------------------------------------------------
-- The claims.
-- ---------------------------------------------------------------------------

/-- Claim C1: for every non-empty sequence of leaves stored in the tree and
every valid leaf index `i`, generating an inclusion proof for `i` after
building the tree and passing that proof to the verifier returns `true`.
The statement quantifies over the stored leaf sequence, which covers every
sequence of `put`/`add_leaf` calls in either secure mode. -/
theorem C1_inclusion_roundtrip (H : String → String) (leaves : List String) (i : Nat)
    (_hne : leaves ≠ []) (hi : i < leaves.length) :
    (get_proof_of_inclusion H leaves i).map (verify_proof_of_inclusion H) =
      Except.ok true := by
  simp only [get_proof_of_inclusion, if_pos hi, Except.map, verify_proof_of_inclusion]
  rw [verify_fold_path H leaves i hi]
  simp

theorem C1_inclusion_roundtrip_witness :
    ((["a", "bb", "c"] : List String) ≠ [] ∧ 2 < (["a", "bb", "c"] : List String).length) ∧
    (get_proof_of_inclusion (fun s => "h" ++ s) ["a", "bb", "c"] 2).map
      (verify_proof_of_inclusion (fun s => "h" ++ s)) = Except.ok true :=
  ⟨⟨by decide, by decide⟩,
    C1_inclusion_roundtrip (fun s => "h" ++ s) ["a", "bb", "c"] 2 (by decide) (by decide)⟩

/-- Claim C2 is false of the code: the guard on line 50 of `mt.py` wraps the
three isinstance results in a tuple, and a non-empty tuple is truthy, so
`not (...)` is always `False`; `put` never raises the boundary `TypeError`,
and in particular `put(42)` proceeds to `add_leaf` with the int. -/
theorem C2_put_boundary_guard_never_fires :
    put (PyVal.pint 42) = PutOutcome.addedLeaf (PyVal.pint 42) ∧
    put PyVal.pnone = PutOutcome.addedLeaf PyVal.pnone ∧
    ∀ v : PyVal, put v ≠ PutOutcome.raisedTypeError := by
  refine ⟨rfl, rfl, ?_⟩
  intro v
  simp [put, put_guard_raises, pyTruthy]

/-- Claim C3: `get_proof_of_exclusion` indeed fails on every call with
`NotImplementedError`; but `verify_proof_of_exclusion` is declared without
`self` (line 238), so the ordinary instance-method call fails with an
argument-count `TypeError` before its `raise NotImplementedError` line can
run — a different error than the claim states. -/
theorem C3_exclusion_calls :
    call_get_proof_of_exclusion = Except.error MTError.notImplemented ∧
    call_verify_proof_of_exclusion = Except.error MTError.typeError ∧
    MTError.typeError ≠ MTError.notImplemented :=
  ⟨rfl, rfl, by decide⟩

/-- Claim C4: with an odd number of nodes on a level the last node is paired
with a duplicate of itself — for leaves `[A, B, C]` level 1 is
`[H(A++B), H(C++C)]` and the root is `H(H(A++B) ++ H(C++C))`. -/
theorem C4_odd_level_duplicates_last (H : String → String) (A B C : String) :
    build_levels H [A, B, C] =
      [[A, B, C], [H (A ++ B), H (C ++ C)], [H (H (A ++ B) ++ H (C ++ C))]] ∧
    merkle_root H [A, B, C] = H (H (A ++ B) ++ H (C ++ C)) := by
  constructor <;> simp [build_levels, next_level, merkle_root]

/-- Claim C5: `_convert_dict_to_string` is not injective — two distinct dicts
with str keys and values, `{"ab": "c"}` and `{"a": "bc"}`, flatten to the
same string `"abc"`. -/
theorem C5_flatten_not_injective :
    ∃ d1 d2 : PyDict, PyDict.allStr d1 = true ∧ PyDict.allStr d2 = true ∧
      d1 ≠ d2 ∧ _convert_dict_to_string d1 = _convert_dict_to_string d2 := by
  refine ⟨PyDict.cons (.pstr "ab") (.pstr "c") .nil,
    PyDict.cons (.pstr "a") (.pstr "bc") .nil, rfl, rfl, ?_, by decide⟩
  intro h
  injection h with hk _ _
  injection hk with hs
  exact absurd hs (by decide)

/-- Claim C6: `convert_value` returns a byte-string value unchanged when the
tree was constructed with `secure=False`, and the configured hash function's
(hex-encoded) digest of it when constructed with `secure=True`. -/
theorem C6_convert_value_secure_mode (H : String → String) (s : String) :
    convert_value H false (PyVal.pbytes s) = Except.ok (PyVal.pbytes s) ∧
    convert_value H true (PyVal.pbytes s) = Except.ok (PyVal.pbytes (H s)) :=
  ⟨rfl, rfl⟩

/-- Claim C7: when the tree is not built, `get_merkle_root` first performs a
build (`make_tree`) and then returns the root — its result equals the result
of explicitly building and then reading the root. -/
theorem C7_get_merkle_root_implicit_build (H : String → String) (st : MTState)
    (h : is_ready st = false) :
    get_merkle_root H st = (make_tree H st).bind read_root := by
  simp [get_merkle_root, h]

theorem C7_get_merkle_root_implicit_build_witness :
    is_ready (MTState.mk true "sha256" ["leaf"] none) = false ∧
    get_merkle_root (fun s => "h" ++ s) (MTState.mk true "sha256" ["leaf"] none) =
      (make_tree (fun s => "h" ++ s) (MTState.mk true "sha256" ["leaf"] none)).bind read_root :=
  ⟨rfl, C7_get_merkle_root_implicit_build (fun s => "h" ++ s)
    (MTState.mk true "sha256" ["leaf"] none) rfl⟩

/-- Claim C8: `get_merkle_root` on a tree holding zero leaves — freshly
constructed or immediately after `reset_tree` — fails with `EmptyTree`
rather than returning a root. -/
theorem C8_get_merkle_root_empty_fails (H : String → String) (secure : Bool)
    (ht : String) (st : MTState) :
    get_merkle_root H (MTState.mk secure ht [] none) = Except.error MTError.emptyTree ∧
    get_merkle_root H (reset_tree st) = Except.error MTError.emptyTree :=
  ⟨rfl, rfl⟩

/-- Claim C9: the flattening of a dict whose value is itself a dict discards
the outer key — `{k1: d}` and `{k2: d}` flatten identically for every dict
`d` and any two keys. -/
theorem C9_nested_dict_outer_key_discarded (k1 k2 : PyVal) (d : PyDict) :
    _convert_dict_to_string (PyDict.cons k1 (PyVal.pdict d) PyDict.nil) =
    _convert_dict_to_string (PyDict.cons k2 (PyVal.pdict d) PyDict.nil) := rfl

/-- Claim C10: constructing a `MerkleTree` with a non-`bool` `secure`
argument fails with a `TypeError` before any other initialization. -/
theorem C10_init_rejects_nonbool_secure (secure : PyVal) (ht : String)
    (h : secure.isBool = false) :
    MerkleTree.init secure ht = Except.error MTError.typeError := by
  simp [MerkleTree.init, h]

theorem C10_init_rejects_nonbool_secure_witness :
    PyVal.isBool (PyVal.pint 1) = false ∧
    MerkleTree.init (PyVal.pint 1) "sha256" = Except.error MTError.typeError :=
  ⟨rfl, C10_init_rejects_nonbool_secure (PyVal.pint 1) "sha256" rfl⟩
